import Mathlib

/-!
Verification of the default-clause synthesizer of `specified_default_derive`
(src/lib.rs). The derive macro receives one parsed type declaration
(`syn::DeriveInput`) and emits an `impl Default` block: for a named-field
struct each field is initialised either by parsing the string literal of a
`#[default = "..."]` attribute or by `Default::default()`; for an enum the
first variant carrying an attribute named `default` becomes the default
variant. All other shapes, and malformed attributes, abort generation with
a panic. The definitions below are a shallow embedding of that generator;
the theorems settle the specified properties.
-/

namespace SpecifiedDefault

/-- Literal values of the host attribute syntax (`syn::Lit`): the generator
only distinguishes string literals from everything else, so string, integer
and boolean forms suffice. -/
inductive Lit where
  | str (value : String)
  | int (value : Nat)
  | boolean (value : Bool)
  deriving DecidableEq

/-- Attribute meta items (`syn::MetaItem`): a bare word (`#[default]`), a
list form (`#[default(..)]`), or a name/value pair (`#[default = lit]`).
The generator never inspects the items of a list form, so they are kept as
plain literals. -/
inductive MetaItem where
  | word (name : String)
  | list (name : String) (items : List Lit)
  | nameValue (name : String) (lit : Lit)
  deriving DecidableEq

/-- `syn::MetaItem::name()`: the leading identifier of any of the three
attribute forms. -/
def MetaItem.name : MetaItem → String
  | MetaItem.word n => n
  | MetaItem.list n _ => n
  | MetaItem.nameValue n _ => n

/-- `syn::Attribute`, reduced to the one component the generator reads:
its meta-item value. -/
structure Attribute where
  value : MetaItem
  deriving DecidableEq

/-- `syn::Attribute::name()` delegates to the meta item's name. -/
def Attribute.name (attr : Attribute) : String := attr.value.name

/-- A struct or variant field (`syn::Field`): optional identifier (named
fields always have one), attached attributes, and the declared element
type, which the generator treats as opaque text and never inspects. -/
structure Field where
  ident : Option String
  attrs : List Attribute
  ty : String
  deriving DecidableEq

/-- `syn::VariantData`: braced named fields, parenthesised tuple fields,
or a unit (fieldless) declaration. -/
inductive VariantData where
  | struct (fields : List Field)
  | tuple (fields : List Field)
  | unit
  deriving DecidableEq

/-- `syn::Variant`: an enum variant with its identifier, attached
attributes and payload data (the generator reads only the first two). -/
structure Variant where
  ident : String
  attrs : List Attribute
  data : VariantData
  deriving DecidableEq

/-- `syn::Body`: the declaration is a struct (of some `VariantData`) or an
enum with a list of variants. -/
inductive Body where
  | struct (data : VariantData)
  | enum (variants : List Variant)
  deriving DecidableEq

/-- `syn::DeriveInput`, reduced to what the generator reads: the type's
identifier and its body. -/
structure DeriveInput where
  ident : String
  body : Body
  deriving DecidableEq

/-- One field initialiser of the emitted `impl Default` block: either
`ident: "lit".parse().expect(..)` for an overridden field, or
`ident: Default::default()` for a plain one. -/
inductive FieldInit where
  | parseLit (ident : Option String) (value : String)
  | defaultCall (ident : Option String)
  deriving DecidableEq

/-- The emitted `impl Default for Name` block: a struct constructor built
from per-field initialisers, or a bare variant reference for an enum. -/
inductive GeneratedImpl where
  | structImpl (name : String) (fields : List FieldInit)
  | enumImpl (name : String) (variant : String)
  deriving DecidableEq

/-- The generation-time failures of `impl_specified_defaults`, one per
`panic!`/`expect` in the source. -/
inductive GenError where
  | unsupportedShape
  | nonStringLiteralAttribute
  | nonNameValueAttribute
  | missingDefaultVariant
  deriving DecidableEq

/-- The two attribute-shape panics are the malformed-annotation failures of
the error taxonomy. -/
def GenError.malformed : GenError → Bool
  | GenError.nonStringLiteralAttribute => true
  | GenError.nonNameValueAttribute => true
  | _ => false

/-- `const ATTRIBUTE_NAME: &'static str = "default";` -/
def ATTRIBUTE_NAME : String := "default"

/-- The per-field closure of the struct arm of `impl_specified_defaults`:
look for an attribute named `default`; with none the field is initialised
by `Default::default()`; a `name = "string"` attribute stores the literal
for deferred parsing; any other attribute form panics. -/
def genFieldInit (field : Field) : Except GenError FieldInit :=
  match field.attrs.find? (fun attr => attr.value.name == ATTRIBUTE_NAME) with
  | some attr =>
    match attr.value with
    | MetaItem.nameValue _ lit =>
      match lit with
      | Lit.str value => Except.ok (FieldInit.parseLit field.ident value)
      | _ => Except.error GenError.nonStringLiteralAttribute
    | _ => Except.error GenError.nonNameValueAttribute
  | none => Except.ok (FieldInit.defaultCall field.ident)

/-- The `fields.iter().map(..).collect::<Vec<_>>()` of the struct arm: the
fields are translated in source order and the first panic aborts the
whole generation. -/
def genFieldInits : List Field → Except GenError (List FieldInit)
  | [] => Except.ok []
  | field :: rest =>
    match genFieldInit field with
    | Except.ok init =>
      match genFieldInits rest with
      | Except.ok inits => Except.ok (init :: inits)
      | Except.error e => Except.error e
    | Except.error e => Except.error e

/-- The predicate of the enum arm's `variants.iter().find(..)`: the variant
carries some attribute whose name is `default`, of any form. -/
def isDefaultVariant (variant : Variant) : Bool :=
  (variant.attrs.find? (fun attr => attr.name == ATTRIBUTE_NAME)).isSome

/-- `impl_specified_defaults` (src/lib.rs lines 69-124): dispatch on the
declaration's body. Named-field structs get a constructor of per-field
initialisers; enums get the first variant that `find` locates with a
`default`-named attribute, with a panic when there is none; every other
shape panics as unsupported. -/
def impl_specified_defaults (ast : DeriveInput) : Except GenError GeneratedImpl :=
  match ast.body with
  | Body.struct (VariantData.struct fields) =>
    match genFieldInits fields with
    | Except.ok inits => Except.ok (GeneratedImpl.structImpl ast.ident inits)
    | Except.error e => Except.error e
  | Body.enum variants =>
    match variants.find? isDefaultVariant with
    | some variant => Except.ok (GeneratedImpl.enumImpl ast.ident variant.ident)
    | none => Except.error GenError.missingDefaultVariant
  | _ => Except.error GenError.unsupportedShape

/-- Rendering of one field initialiser to the text the `quote!` macro
produces for it. -/
def FieldInit.render : FieldInit → String
  | FieldInit.parseLit ident value =>
    ident.getD "" ++ ": \"" ++ value ++
      "\".parse().expect(&format!(\"Failed to parse \x7b\x7d\", \"" ++ value ++ "\"))"
  | FieldInit.defaultCall ident =>
    ident.getD "" ++ ": Default::default()"

/-- Rendering of the whole generated `impl Default` block to source text,
as the surrounding `quote!` templates lay it out. -/
def GeneratedImpl.render : GeneratedImpl → String
  | GeneratedImpl.structImpl name fields =>
    "impl Default for " ++ name ++ " \x7b fn default() -> " ++ name ++ " \x7b " ++
      name ++ " \x7b " ++ String.intercalate ", " (fields.map FieldInit.render) ++
      " \x7d \x7d \x7d"
  | GeneratedImpl.enumImpl name variant =>
    "impl Default for " ++ name ++ " \x7b fn default() -> " ++ name ++ " \x7b " ++
      name ++ "::" ++ variant ++ " \x7d \x7d"

/-- Semantic model of one element type, for evaluating the generated code:
its `FromStr`-style text-to-value conversion and its `Default::default()`
value. The generator itself never inspects element types; this model is
only used to state what the emitted initialisers compute when run. -/
structure ElemType (α : Type) where
  parseText : String → Option α
  defaultValue : α

/-- Evaluate one emitted field initialiser at the field's element type:
`"lit".parse().expect(..)` parses the stored literal (`none` models the
`expect` panic on an invalid literal), `Default::default()` produces the
element type's default value. -/
def evalFieldInit {α : Type} (E : ElemType α) : FieldInit → Option α
  | FieldInit.parseLit _ value => E.parseText value
  | FieldInit.defaultCall _ => some E.defaultValue

/-- Decimal accumulation over a character list: digits only, anything else
fails. -/
def decimalAux : List Char → Nat → Option Nat
  | [], acc => some acc
  | c :: rest, acc =>
    if c.isDigit then decimalAux rest (acc * 10 + (c.toNat - 48)) else none

/-- Decimal parsing of a non-empty all-digit string. -/
def parseDecimal (s : String) : Option Nat :=
  match s.data with
  | [] => none
  | c :: rest => decimalAux (c :: rest) 0

/-- The `u32` element type of the crate's doc example: decimal parsing of
values below 2^32, default value 0. -/
def u32Elem : ElemType Nat :=
  ⟨fun s =>
    match parseDecimal s with
    | some n => if n < 2 ^ 32 then some n else none
    | none => none,
   0⟩

/-- `width: u32` annotated `#[default = "640"]`, from the doc example. -/
def widthField : Field :=
  ⟨some "width", [⟨MetaItem.nameValue "default" (Lit.str "640")⟩], "u32"⟩

/-- `height: u32` with no attribute. -/
def heightField : Field := ⟨some "height", [], "u32"⟩

/-- `width: u32` without any attribute, for comparison runs. -/
def plainWidthField : Field := ⟨some "width", [], "u32"⟩

/-- The doc example's struct declaration, reduced to two fields. -/
def myStructInput : DeriveInput :=
  ⟨"MyStruct", Body.struct (VariantData.struct [widthField, heightField])⟩

/-- Unmarked variant `Foo` of the doc example's enum. -/
def fooVariant : Variant := ⟨"Foo", [], VariantData.unit⟩

/-- Variant `Bar` marked `#[default]`. -/
def barVariant : Variant :=
  ⟨"Bar", [⟨MetaItem.word "default"⟩], VariantData.unit⟩

/-- The doc example's enum declaration. -/
def myEnumInput : DeriveInput := ⟨"MyEnum", Body.enum [fooVariant, barVariant]⟩

/-- Variant `A` marked `#[default]`. -/
def vA : Variant := ⟨"A", [⟨MetaItem.word "default"⟩], VariantData.unit⟩

/-- Variant `B`, also marked `#[default]`. -/
def vB : Variant := ⟨"B", [⟨MetaItem.word "default"⟩], VariantData.unit⟩

/-- An enum body in which two distinct variants carry the default marker. -/
def twoDefaultVariants : List Variant := [vA, vB]

/-- `find?` locates the head of the filtered list: the first element the
predicate accepts. -/
theorem find?_of_filter_cons {α : Type} (p : α → Bool) (l : List α) :
    ∀ (v : α) (rest : List α), l.filter p = v :: rest → l.find? p = some v := by
  induction l with
  | nil => intro v rest h; simp at h
  | cons a t ih =>
    intro v rest h
    cases hpa : p a with
    | true =>
      rw [List.filter_cons_of_pos hpa] at h
      rw [List.find?_cons_of_pos _ hpa]
      exact congrArg some (List.cons.injEq .. ▸ h).1
    | false =>
      rw [List.filter_cons_of_neg (by simp [hpa])] at h
      rw [List.find?_cons_of_neg _ (by simp [hpa])]
      exact ih v rest h

/-- When the filtered list is empty, `find?` finds nothing. -/
theorem find?_of_filter_nil {α : Type} (p : α → Bool) (l : List α)
    (h : l.filter p = []) : l.find? p = none := by
  induction l with
  | nil => rfl
  | cons a t ih =>
    cases hpa : p a with
    | true => rw [List.filter_cons_of_pos hpa] at h; exact absurd h (by simp)
    | false =>
      rw [List.filter_cons_of_neg (by simp [hpa])] at h
      rw [List.find?_cons_of_neg _ (by simp [hpa])]
      exact ih h

/-- Successful field translation preserves the number of fields. -/
theorem genFieldInits_ok_length :
    ∀ {fields : List Field} {inits : List FieldInit},
      genFieldInits fields = Except.ok inits → inits.length = fields.length := by
  intro fields
  induction fields with
  | nil => intro inits h; cases h; rfl
  | cons field rest ih =>
    intro inits h
    unfold genFieldInits at h
    cases hf : genFieldInit field with
    | error e => rw [hf] at h; cases h
    | ok init =>
      rw [hf] at h
      cases hr : genFieldInits rest with
      | error e => rw [hr] at h; cases h
      | ok tailInits =>
        rw [hr] at h
        cases h
        simp [ih hr]

/-- In a successful field translation, the initialiser at each index is
the translation of the field at that index and of nothing else. -/
theorem genFieldInits_ok_get :
    ∀ {fields : List Field} {inits : List FieldInit},
      genFieldInits fields = Except.ok inits →
      ∀ i : Nat, inits[i]? = (fields[i]?).bind (fun field => (genFieldInit field).toOption) := by
  intro fields
  induction fields with
  | nil => intro inits h; cases h; intro i; simp
  | cons field rest ih =>
    intro inits h
    unfold genFieldInits at h
    cases hf : genFieldInit field with
    | error e => rw [hf] at h; cases h
    | ok init =>
      rw [hf] at h
      cases hr : genFieldInits rest with
      | error e => rw [hr] at h; cases h
      | ok tailInits =>
        rw [hr] at h
        cases h
        intro i
        cases i with
        | zero => simp [hf, Except.toOption]
        | succ j => simp [ih hr j]

/-- The only failures a single field translation can produce are the two
malformed-annotation panics. -/
theorem genFieldInit_error_malformed {field : Field} {e : GenError}
    (h : genFieldInit field = Except.error e) : e.malformed = true := by
  unfold genFieldInit at h
  split at h
  case h_2 => cases h
  case h_1 attr hfind =>
    split at h
    case h_2 => cases h; rfl
    case h_1 lit =>
      split at h
      case h_1 => cases h
      case h_2 => cases h; rfl

/-- The only failures the whole field list translation can produce are the
two malformed-annotation panics. -/
theorem genFieldInits_error_malformed :
    ∀ {fields : List Field} {e : GenError},
      genFieldInits fields = Except.error e → e.malformed = true := by
  intro fields
  induction fields with
  | nil => intro e h; cases h
  | cons field rest ih =>
    intro e h
    unfold genFieldInits at h
    cases hf : genFieldInit field with
    | error e₂ => rw [hf] at h; cases h; exact genFieldInit_error_malformed hf
    | ok init =>
      rw [hf] at h
      cases hr : genFieldInits rest with
      | error e₂ => rw [hr] at h; cases h; exact ih hr
      | ok tailInits => rw [hr] at h; cases h

/-- A successful run on a named-field struct is exactly a successful field
translation wrapped in the struct constructor. -/
theorem impl_struct_ok {name : String} {fields : List Field} {out : GeneratedImpl}
    (h : impl_specified_defaults ⟨name, Body.struct (VariantData.struct fields)⟩ =
      Except.ok out) :
    ∃ inits, genFieldInits fields = Except.ok inits ∧
      out = GeneratedImpl.structImpl name inits := by
  cases hg : genFieldInits fields with
  | error e => simp [impl_specified_defaults, hg] at h
  | ok inits =>
    simp [impl_specified_defaults, hg] at h
    exact ⟨inits, rfl, h.symm⟩

/-- Claim C1: in a RecordShape whose generation succeeds, a field carrying
no `default`-named attribute is assigned the `Default::default()`
initialiser, and evaluating that initialiser at the field's element type
yields the element type's own default value. -/
theorem no_override_gets_type_default {α : Type} (E : ElemType α)
    (name : String) (fields : List Field) (inits : List FieldInit)
    (i : Nat) (field : Field)
    (himpl : impl_specified_defaults ⟨name, Body.struct (VariantData.struct fields)⟩ =
      Except.ok (GeneratedImpl.structImpl name inits))
    (hget : fields[i]? = some field)
    (hno : field.attrs.find? (fun attr => attr.value.name == ATTRIBUTE_NAME) = none) :
    inits[i]? = some (FieldInit.defaultCall field.ident) ∧
    evalFieldInit E (FieldInit.defaultCall field.ident) = some E.defaultValue := by
  obtain ⟨inits₂, hg, hout⟩ := impl_struct_ok himpl
  injection hout with hn hi
  subst hi
  have hgi := genFieldInits_ok_get hg i
  rw [hget] at hgi
  refine ⟨?_, rfl⟩
  rw [hgi]
  simp [genFieldInit, hno, Except.toOption]

/-- Claim C1 witness: the two-field doc example, at index 1 (`height`,
no attribute) with the `u32` element type. -/
theorem no_override_gets_type_default_witness :
    ([FieldInit.parseLit (some "width") "640",
      FieldInit.defaultCall (some "height")][1]? =
        some (FieldInit.defaultCall heightField.ident)) ∧
    evalFieldInit u32Elem (FieldInit.defaultCall heightField.ident) =
      some u32Elem.defaultValue :=
  no_override_gets_type_default u32Elem "MyStruct" [widthField, heightField]
    [FieldInit.parseLit (some "width") "640", FieldInit.defaultCall (some "height")]
    1 heightField rfl (by decide) (by decide)

/-- Claim C2: in a RecordShape whose generation succeeds, a field whose
`default`-named attribute is a name/value pair with string literal `lit`
is assigned the initialiser that parses `lit`, and whenever the element
type's own text conversion accepts `lit` as the value `v`, evaluating that
initialiser yields exactly `v` (the round trip of the override literal). -/
theorem override_gets_parsed_literal {α : Type} (E : ElemType α)
    (name : String) (fields : List Field) (inits : List FieldInit)
    (i : Nat) (field : Field) (attr : Attribute) (attrName lit : String) (v : α)
    (himpl : impl_specified_defaults ⟨name, Body.struct (VariantData.struct fields)⟩ =
      Except.ok (GeneratedImpl.structImpl name inits))
    (hget : fields[i]? = some field)
    (hfind : field.attrs.find? (fun attr => attr.value.name == ATTRIBUTE_NAME) = some attr)
    (hval : attr.value = MetaItem.nameValue attrName (Lit.str lit))
    (hparse : E.parseText lit = some v) :
    inits[i]? = some (FieldInit.parseLit field.ident lit) ∧
    evalFieldInit E (FieldInit.parseLit field.ident lit) = some v := by
  obtain ⟨inits₂, hg, hout⟩ := impl_struct_ok himpl
  injection hout with hn hi
  subst hi
  have hgi := genFieldInits_ok_get hg i
  rw [hget] at hgi
  refine ⟨?_, by simp [evalFieldInit, hparse]⟩
  rw [hgi]
  simp [genFieldInit, hfind, hval, Except.toOption]

/-- Claim C2 witness: the `width` field overridden with `"640"` at the
`u32` element type evaluates to 640. -/
theorem override_gets_parsed_literal_witness :
    ([FieldInit.parseLit (some "width") "640",
      FieldInit.defaultCall (some "height")][0]? =
        some (FieldInit.parseLit widthField.ident "640")) ∧
    evalFieldInit u32Elem (FieldInit.parseLit widthField.ident "640") = some 640 :=
  override_gets_parsed_literal u32Elem "MyStruct" [widthField, heightField]
    [FieldInit.parseLit (some "width") "640", FieldInit.defaultCall (some "height")]
    0 widthField ⟨MetaItem.nameValue "default" (Lit.str "640")⟩ "default" "640" 640
    rfl (by decide) (by decide) (by decide) (by decide)

/-- Claim C3: a ChoiceShape on which exactly one variant carries the
default marker generates the implementation that returns precisely that
variant, so no unmarked variant is ever produced. -/
theorem choice_unique_marked_selected (name : String) (variants : List Variant)
    (v : Variant) (hone : variants.filter isDefaultVariant = [v]) :
    impl_specified_defaults ⟨name, Body.enum variants⟩ =
      Except.ok (GeneratedImpl.enumImpl name v.ident) := by
  have hfind := find?_of_filter_cons isDefaultVariant variants v [] hone
  simp [impl_specified_defaults, hfind]

/-- Claim C3 witness: the doc example's enum `{Foo, #[default] Bar}`
yields `Bar`. -/
theorem choice_unique_marked_selected_witness :
    impl_specified_defaults ⟨"MyEnum", Body.enum [fooVariant, barVariant]⟩ =
      Except.ok (GeneratedImpl.enumImpl "MyEnum" barVariant.ident) :=
  choice_unique_marked_selected "MyEnum" [fooVariant, barVariant] barVariant (by decide)

/-- Claim C4 counterexample: on an enum whose two variants `A` and `B` are
both marked `#[default]`, generation does not fail at all — it succeeds and
silently emits the implementation returning `A`. -/
theorem two_marked_variants_not_rejected :
    (twoDefaultVariants.filter isDefaultVariant).length = 2 ∧
    impl_specified_defaults ⟨"E", Body.enum twoDefaultVariants⟩ =
      Except.ok (GeneratedImpl.enumImpl "E" "A") :=
  ⟨by decide, rfl⟩

/-- Claim C4 amended: on a ChoiceShape with more than one variant marked
default, generation succeeds and silently selects the first marked variant
in declaration order; no ambiguity error is raised. -/
theorem multiple_marked_first_selected (name : String) (variants : List Variant)
    (v w : Variant) (rest : List Variant)
    (hmany : variants.filter isDefaultVariant = v :: w :: rest) :
    impl_specified_defaults ⟨name, Body.enum variants⟩ =
      Except.ok (GeneratedImpl.enumImpl name v.ident) := by
  have hfind := find?_of_filter_cons isDefaultVariant variants v (w :: rest) hmany
  simp [impl_specified_defaults, hfind]

/-- Claim C4 amended witness: the doubly marked enum yields its first
marked variant `A`. -/
theorem multiple_marked_first_selected_witness :
    impl_specified_defaults ⟨"E", Body.enum twoDefaultVariants⟩ =
      Except.ok (GeneratedImpl.enumImpl "E" vA.ident) :=
  multiple_marked_first_selected "E" twoDefaultVariants vA vB [] (by decide)

/-- Claim C5: a ChoiceShape with no variant marked default fails generation
with the missing-default-variant error and produces no implementation. -/
theorem zero_marked_missing_default_error (name : String) (variants : List Variant)
    (hnone : variants.filter isDefaultVariant = []) :
    impl_specified_defaults ⟨name, Body.enum variants⟩ =
      Except.error GenError.missingDefaultVariant := by
  have hfind := find?_of_filter_nil isDefaultVariant variants hnone
  simp [impl_specified_defaults, hfind]

/-- Claim C5 witness: an enum whose only variant `Foo` carries no marker
fails with the missing-default-variant error. -/
theorem zero_marked_missing_default_error_witness :
    impl_specified_defaults ⟨"MyEnum", Body.enum [fooVariant]⟩ =
      Except.error GenError.missingDefaultVariant :=
  zero_marked_missing_default_error "MyEnum" [fooVariant] (by decide)

/-- Claim C6: a RecordShape containing a field whose `default`-named
attribute is not a name/value pair with a string literal fails generation
with one of the two malformed-annotation errors. -/
theorem malformed_override_rejected (name : String) (fields : List Field)
    (i : Nat) (field : Field) (attr : Attribute)
    (hget : fields[i]? = some field)
    (hfind : field.attrs.find? (fun a => a.value.name == ATTRIBUTE_NAME) = some attr)
    (hform : ∀ n s, attr.value ≠ MetaItem.nameValue n (Lit.str s)) :
    ∃ e, impl_specified_defaults ⟨name, Body.struct (VariantData.struct fields)⟩ =
      Except.error e ∧ e.malformed = true := by
  have hbad : ∃ e, genFieldInit field = Except.error e := by
    cases hv : attr.value with
    | word n =>
      exact ⟨GenError.nonNameValueAttribute, by simp [genFieldInit, hfind, hv]⟩
    | list n items =>
      exact ⟨GenError.nonNameValueAttribute, by simp [genFieldInit, hfind, hv]⟩
    | nameValue n lit =>
      cases lit with
      | str s => exact absurd hv (hform n s)
      | int k =>
        exact ⟨GenError.nonStringLiteralAttribute, by simp [genFieldInit, hfind, hv]⟩
      | boolean b =>
        exact ⟨GenError.nonStringLiteralAttribute, by simp [genFieldInit, hfind, hv]⟩
  obtain ⟨e₀, he₀⟩ := hbad
  cases hg : genFieldInits fields with
  | ok inits =>
    exfalso
    have hgi := genFieldInits_ok_get hg i
    rw [hget] at hgi
    simp [he₀, Except.toOption] at hgi
    have hi : i < fields.length := by
      by_contra hle
      rw [List.getElem?_eq_none_iff.mpr (Nat.le_of_not_lt hle)] at hget
      cases hget
    have hlen := genFieldInits_ok_length hg
    omega
  | error e =>
    refine ⟨e, ?_, genFieldInits_error_malformed hg⟩
    simp [impl_specified_defaults, hg]

/-- Claim C6 witness: a single field annotated with the valueless form
`#[default]` fails generation with a malformed-annotation error. -/
theorem malformed_override_rejected_witness :
    ∃ e, impl_specified_defaults
      ⟨"S", Body.struct (VariantData.struct
        [⟨some "w", [⟨MetaItem.word "default"⟩], "u32"⟩])⟩ =
      Except.error e ∧ e.malformed = true :=
  malformed_override_rejected "S" [⟨some "w", [⟨MetaItem.word "default"⟩], "u32"⟩]
    0 ⟨some "w", [⟨MetaItem.word "default"⟩], "u32"⟩ ⟨MetaItem.word "default"⟩
    (by decide) (by decide) (by intro n s h; cases h)

/-- Claim C7: a declaration whose shape is neither a named-field record nor
a choice — a tuple (positional-field) struct or a unit (fieldless) struct —
fails generation with the unsupported-shape error. -/
theorem unsupported_shape_rejected (name : String) (fields : List Field) :
    impl_specified_defaults ⟨name, Body.struct (VariantData.tuple fields)⟩ =
      Except.error GenError.unsupportedShape ∧
    impl_specified_defaults ⟨name, Body.struct VariantData.unit⟩ =
      Except.error GenError.unsupportedShape :=
  ⟨rfl, rfl⟩

/-- Claim C8: the initialiser generated for a field depends on that field
alone — two successful runs whose field lists agree at an index produce the
same initialiser at that index, whatever the annotations on the other
fields are. -/
theorem record_field_independence
    (n₁ n₂ : String) (fs₁ fs₂ : List Field) (out₁ out₂ : List FieldInit) (i : Nat)
    (h₁ : impl_specified_defaults ⟨n₁, Body.struct (VariantData.struct fs₁)⟩ =
      Except.ok (GeneratedImpl.structImpl n₁ out₁))
    (h₂ : impl_specified_defaults ⟨n₂, Body.struct (VariantData.struct fs₂)⟩ =
      Except.ok (GeneratedImpl.structImpl n₂ out₂))
    (hagree : fs₁[i]? = fs₂[i]?) :
    out₁[i]? = out₂[i]? := by
  obtain ⟨inits₁, hg₁, hout₁⟩ := impl_struct_ok h₁
  obtain ⟨inits₂, hg₂, hout₂⟩ := impl_struct_ok h₂
  injection hout₁ with hn₁ hi₁
  injection hout₂ with hn₂ hi₂
  subst hi₁
  subst hi₂
  rw [genFieldInits_ok_get hg₁ i, genFieldInits_ok_get hg₂ i, hagree]

/-- Claim C8 witness: `height` receives the same initialiser whether or
not `width` carries the `"640"` override. -/
theorem record_field_independence_witness :
    ([FieldInit.defaultCall (some "width"),
      FieldInit.defaultCall (some "height")][1]? =
     [FieldInit.parseLit (some "width") "640",
      FieldInit.defaultCall (some "height")][1]?) :=
  record_field_independence "MyStruct" "MyStruct"
    [plainWidthField, heightField] [widthField, heightField]
    [FieldInit.defaultCall (some "width"), FieldInit.defaultCall (some "height")]
    [FieldInit.parseLit (some "width") "640", FieldInit.defaultCall (some "height")]
    1 rfl rfl (by decide)

/-- Claim C9: synthesis is a pure function — two invocations on
structurally identical declarations render to textually identical
generated output. -/
theorem synthesis_deterministic (d₁ d₂ : DeriveInput) (h : d₁ = d₂) :
    (impl_specified_defaults d₁).map GeneratedImpl.render =
    (impl_specified_defaults d₂).map GeneratedImpl.render := by
  rw [h]

/-- Claim C9 witness: two runs on the doc example's struct render to the
same text. -/
theorem synthesis_deterministic_witness :
    (impl_specified_defaults myStructInput).map GeneratedImpl.render =
    (impl_specified_defaults myStructInput).map GeneratedImpl.render :=
  synthesis_deterministic myStructInput myStructInput rfl

/-- Claim C10: on the enum path any attached attribute whose name is
`default` is accepted as the marker whatever its form — here a
value-carrying one on the first variant makes that variant the default
instead of being rejected as malformed. -/
theorem variant_marker_any_form (name vident : String) (attr : Attribute)
    (moreAttrs : List Attribute) (data : VariantData) (rest : List Variant)
    (hname : attr.name = ATTRIBUTE_NAME) :
    impl_specified_defaults
      ⟨name, Body.enum (⟨vident, attr :: moreAttrs, data⟩ :: rest)⟩ =
      Except.ok (GeneratedImpl.enumImpl name vident) := by
  have hmarked : isDefaultVariant ⟨vident, attr :: moreAttrs, data⟩ = true := by
    simp only [isDefaultVariant, List.find?_cons]
    simp [hname]
  simp [impl_specified_defaults, List.find?_cons_of_pos _ hmarked]

/-- Claim C10 witness: the name/value form `#[default = "x"]` on a variant
is taken as the default marker and generation succeeds. -/
theorem variant_marker_any_form_witness :
    impl_specified_defaults ⟨"MyEnum", Body.enum
      [⟨"Baz", [⟨MetaItem.nameValue "default" (Lit.str "x")⟩], VariantData.unit⟩]⟩ =
      Except.ok (GeneratedImpl.enumImpl "MyEnum" "Baz") :=
  variant_marker_any_form "MyEnum" "Baz" ⟨MetaItem.nameValue "default" (Lit.str "x")⟩
    [] VariantData.unit [] (by decide)

end SpecifiedDefault
